import Mathlib

/-!
Shallow embedding of the serverless proxy handler in api/index.js
(milkymilk-vercel): a single HTTP handler that forwards chat-completion
requests to the NVIDIA NIM endpoint and relays the response back to the
caller, either as a server-sent-event stream or as one JSON body.

The handler is modelled as a pure function of the process environment, the
outcome of the (at most one) outbound fetch, and the incoming request; its
result records the response sent to the caller together with an ordered
trace of the observable side effects (arming the timeout timer, the
outbound fetch with the exact headers the code sends, clearTimeout).
console.log calls are not modelled.
-/

namespace MilkyProxy

/-- JSON values, as produced by parsing request and response bodies.
Numbers are modelled as integers; no claim depends on fractional values. -/
inductive Json where
  | null
  | bool (b : Bool)
  | num (n : Int)
  | str (s : String)
  | arr (elems : List Json)
  | obj (fields : List (String × Json))

/-- JavaScript truthiness of a JSON value (the absent value undefined is
handled separately as Option.none by callers). -/
def Json.truthy : Json → Bool
  | .null => false
  | .bool b => b
  | .num n => n != 0
  | .str s => s != ""
  | .arr _ => true
  | .obj _ => true

/-- JavaScript property access v[key]. Option.none models a thrown
TypeError (property access on a null base); some none models the value
undefined (key absent, or base a primitive); some (some j) a present
property. -/
def Json.member : Json → String → Option (Option Json)
  | .null, _ => none
  | .obj fields, key => some (fields.lookup key)
  | _, _ => some none

/-- JavaScript a || b applied to an optionally-present JSON value. -/
def jsOr (v : Option Json) (fallback : Json) : Json :=
  match v with
  | some m => if m.truthy then m else fallback
  | none => fallback

/-- Line 236: errorData.error?.message. Evaluates the optional chain;
none models a thrown TypeError (errorData itself is null, so the plain
access errorData.error throws before the chain operator can guard),
some none the value undefined. -/
def optChainMessage (errorData : Json) : Option (Option Json) :=
  match errorData.member "error" with
  | none => none
  | some none => some none
  | some (some .null) => some none
  | some (some e) => e.member "message"

/-- Line 232: response.json().catch with an empty-object substitute: the
parsed upstream error body, with an empty object substituted when parsing
fails (Except.error carries the parse exception message). -/
def parsedOrEmpty : Except String Json → Json
  | .ok j => j
  | .error _ => .obj []

/-- The incoming HTTP request: method, headers (keyed lowercase, as Node
exposes them) and the parsed JSON body; Json.null also stands for an
absent body. -/
structure Request where
  method : String
  headers : List (String × String)
  body : Json

/-- Header lookup with empty-string default, as in lines 184-185. -/
def Request.header (req : Request) (key : String) : String :=
  (req.headers.lookup key).getD ""

/-- Helper for strContains: does the second list start with the first? -/
def startsWithChars : List Char → List Char → Bool
  | [], _ => true
  | _ :: _, [] => false
  | p :: ps, c :: cs => p == c && startsWithChars ps cs

/-- Helper for strContains: does pat occur contiguously in the list? -/
def hasSubChars (pat : List Char) : List Char → Bool
  | [] => pat.isEmpty
  | c :: rest => startsWithChars pat (c :: rest) || hasSubChars pat rest

/-- JavaScript String.prototype.includes. -/
def strContains (s pat : String) : Bool :=
  hasSubChars pat.toList s.toList

/-- JavaScript String.prototype.toLowerCase (ASCII, which covers the
header values the code inspects). -/
def strToLower (s : String) : String :=
  String.mk (s.toList.map Char.toLower)

/-- Line 186: mobile-client detection from the User-Agent and
X-Janitor-Client headers. The handler computes this and only logs it. -/
def isMobile (req : Request) : Bool :=
  strContains (req.header "user-agent") "Mobile" ||
    strContains (strToLower (req.header "x-janitor-client")) "mobile"

/-- The process environment: NVIDIA_API_KEY may be unset (none) or set to
any string; a set-but-empty value is falsy in JavaScript and so also fails
the line 197 check. -/
structure Env where
  nvidiaApiKey : Option String

/-- The upstream fetch response as the handler observes it: HTTP status,
the result of parsing the body as JSON (Except.error carries the parse
exception message), the body chunks as delivered by the stream reader
(UTF-8 text: TextDecoder in stream mode is byte-faithful on UTF-8 input),
and whether the reader throws after delivering those chunks. -/
structure UpstreamResponse where
  status : Nat
  jsonBody : Except String Json
  chunks : List String
  readFails : Bool

/-- response.ok: status in the inclusive range 200-299. -/
def UpstreamResponse.ok (r : UpstreamResponse) : Bool :=
  decide (200 ≤ r.status ∧ r.status ≤ 299)

/-- Outcome of the single outbound fetch: a response, rejection with
AbortError (the 120s timer fired), or rejection with another error
carrying a message (an empty message models a message-less error). -/
inductive FetchResult where
  | success (r : UpstreamResponse)
  | abortError
  | otherError (msg : String)

/-- Observable side effects of one handler run, in order. The fetchCall
event carries exactly the request the code sends upstream: the URL, the
only two outbound headers (Content-Type and Authorization, lines 219-222)
and the JSON payload. -/
inductive Event where
  | armTimer (ms : Nat)
  | fetchCall (url : String) (contentType : String) (authorization : String) (payload : Json)
  | clearTimer

/-- The body the caller receives: empty (res.end with no writes), a single
JSON value (res.json), or the ordered list of chunk writes on the
streaming path. -/
inductive ResBody where
  | empty
  | json (j : Json)
  | stream (writes : List String)

/-- The response sent to the caller: status, the headers set on it, and
the body. -/
structure Response where
  status : Nat
  headers : List (String × String)
  body : ResBody

/-- One handler run: the caller-visible response plus the side-effect
trace. -/
structure HResult where
  resp : Response
  trace : List Event

/-- Lines 157-162: the CORS header table, applied to every response at
lines 165-167 before any branching. -/
def corsHeaders : List (String × String) :=
  [("Access-Control-Allow-Origin", "*"),
   ("Access-Control-Allow-Methods", "GET, POST, OPTIONS"),
   ("Access-Control-Allow-Headers", "Content-Type, Authorization, X-API-Key, User-Agent, X-Janitor-Client"),
   ("Access-Control-Max-Age", "86400")]

/-- Line 192: the single (default) provider base URL. -/
def apiBase : String := "https://integrate.api.nvidia.com/v1"

/-- Lines 249-252: headers set on the streaming path, after the CORS
headers. -/
def streamingHeaders : List (String × String) :=
  [("Content-Type", "text/event-stream"),
   ("Cache-Control", "no-cache"),
   ("Connection", "keep-alive"),
   ("X-Accel-Buffering", "no")]

/-- Lines 273-278: the single synthetic event written when the upstream
body read fails mid-stream. -/
def streamErrorEventText : String :=
  "data: \x7b\"error\":\x7b\"message\":\"Stream interrupted\",\"type\":\"stream_error\"\x7d\x7d\n\n"

/-- Line 176: body of the 405 response. -/
def methodNotAllowedBody : Json := .obj [("error", .str "Method not allowed")]

/-- Lines 198-203: body of the missing-credential response. -/
def configErrorBody : Json :=
  .obj [("error", .obj [("message", .str "NVIDIA_API_KEY not configured"),
                        ("type", .str "configuration_error")])]

/-- Lines 293-299: body of the timeout response. -/
def timeoutErrorBody : Json :=
  .obj [("error", .obj [("message", .str "Request timed out after 120 seconds"),
                        ("type", .str "timeout_error"),
                        ("code", .str "timeout")])]

/-- Lines 234-240: the normalized upstream-error envelope. -/
def apiErrorBody (message : Json) (status : Nat) : Json :=
  .obj [("error", .obj [("message", message),
                        ("type", .str "api_error"),
                        ("code", .num (status : Int))])]

/-- Lines 308-313: body of the catch-all internal-error response; an empty
exception message is falsy and falls back to the generic string. -/
def internalErrorBody (msg : String) : Json :=
  .obj [("error", .obj [("message", .str (if msg = "" then "Internal server error" else msg)),
                        ("type", .str "internal_error")])]

/-- Message of the TypeError thrown at line 236 when the parsed upstream
error body is JSON null. -/
def nullErrorAccessMsg : String :=
  "Cannot read properties of null (reading \x27error\x27)"

/-- Message of the TypeError thrown at line 244 when the request body is
null, so payload.stream throws. -/
def nullStreamAccessMsg : String :=
  "Cannot read properties of null (reading \x27stream\x27)"

/-- Lines 231-241: the non-ok upstream branch. errorData.error?.message
throws when errorData is null (the thrown TypeError is re-thrown at line
302 and lands in the outer catch at line 305); otherwise the upstream
status is relayed with the normalized api_error envelope. -/
def upstreamErrorResult (r : UpstreamResponse) (trace : List Event) : HResult :=
  match optChainMessage (parsedOrEmpty r.jsonBody) with
  | none =>
    { resp := { status := 500, headers := corsHeaders,
                body := .json (internalErrorBody nullErrorAccessMsg) },
      trace := trace }
  | some mv =>
    { resp := { status := r.status, headers := corsHeaders,
                body := .json (apiErrorBody (jsOr mv (.str "API request failed")) r.status) },
      trace := trace }

/-- Lines 243-286: the ok branch. The stream flag is payload.stream viewed
strictly: only the exact boolean false takes the non-streaming relay
(line 244); a null payload makes payload.stream throw, landing in the
outer catch. On the streaming path the body chunks are written in order,
with one synthetic event appended if the reader fails (lines 258-280); on
the non-streaming path the parsed upstream body is returned with 200, and
a parse failure lands in the outer catch (line 284). -/
def relayResult (r : UpstreamResponse) (payload : Json) (trace : List Event) : HResult :=
  match payload.member "stream" with
  | none =>
    { resp := { status := 500, headers := corsHeaders,
                body := .json (internalErrorBody nullStreamAccessMsg) },
      trace := trace }
  | some (some (.bool false)) =>
    (match r.jsonBody with
     | .ok data =>
       { resp := { status := 200, headers := corsHeaders, body := .json data },
         trace := trace }
     | .error msg =>
       { resp := { status := 500, headers := corsHeaders,
                   body := .json (internalErrorBody msg) },
         trace := trace })
  | some _ =>
    { resp := { status := 200, headers := corsHeaders ++ streamingHeaders,
                body := .stream (if r.readFails then r.chunks ++ [streamErrorEventText] else r.chunks) },
      trace := trace }

/-- The trace of side effects once the credential check passes: the 120s
timer is armed (line 211), the single outbound fetch is issued with only
the Content-Type and Authorization headers and the passthrough payload
(lines 217-225), and the timer is cleared as soon as the fetch settles
(line 227 on response, line 289 on rejection). -/
def outboundTrace (apiKey : String) (payload : Json) : List Event :=
  [Event.armTimer 120000,
   Event.fetchCall (apiBase ++ "/chat/completions") "application/json"
     ("Bearer " ++ apiKey) payload,
   Event.clearTimer]

/-- The handler of api/index.js (lines 150-315) as a pure function. Line
186 computes the mobile-client flag (def isMobile above) and only logs
it, so it does not contribute to the result; payload is the request body
forwarded as-is (line 207). -/
def handler (env : Env) (fr : FetchResult) (req : Request) : HResult :=
  if req.method = "OPTIONS" then
    { resp := { status := 204, headers := corsHeaders, body := .empty }, trace := [] }
  else if req.method ≠ "POST" then
    { resp := { status := 405, headers := corsHeaders, body := .json methodNotAllowedBody },
      trace := [] }
  else
    match env.nvidiaApiKey with
    | none =>
      { resp := { status := 500, headers := corsHeaders, body := .json configErrorBody },
        trace := [] }
    | some apiKey =>
      if apiKey = "" then
        { resp := { status := 500, headers := corsHeaders, body := .json configErrorBody },
          trace := [] }
      else
        match fr with
        | .success r =>
          if r.ok = false then upstreamErrorResult r (outboundTrace apiKey req.body)
          else relayResult r req.body (outboundTrace apiKey req.body)
        | .abortError =>
          { resp := { status := 504, headers := corsHeaders, body := .json timeoutErrorBody },
            trace := outboundTrace apiKey req.body }
        | .otherError msg =>
          { resp := { status := 500, headers := corsHeaders,
                      body := .json (internalErrorBody msg) },
            trace := outboundTrace apiKey req.body }

/-- Helper: both branches of the non-ok upstream branch keep the trace. -/
theorem upstreamErrorResult_trace (r : UpstreamResponse) (tr : List Event) :
    (upstreamErrorResult r tr).trace = tr := by
  unfold upstreamErrorResult
  split <;> rfl

/-- Helper: every branch of the relay keeps the trace. -/
theorem relayResult_trace (r : UpstreamResponse) (payload : Json) (tr : List Event) :
    (relayResult r payload tr).trace = tr := by
  unfold relayResult
  split
  · rfl
  · split <;> rfl
  · rfl

/-- Helper: on a POST with a usable credential, the side-effect trace is
always exactly arm-timer, fetch, clear-timer, whatever the fetch outcome
and however the response is then relayed. -/
theorem handler_post_trace (fr : FetchResult)
    (hs : List (String × String)) (body : Json) (k : String) (hk : k ≠ "") :
    (handler { nvidiaApiKey := some k } fr
        { method := "POST", headers := hs, body := body }).trace =
      outboundTrace k body := by
  unfold handler
  dsimp only
  rw [if_neg (by decide : ¬ (("POST" : String) = "OPTIONS"))]
  rw [if_neg (by decide : ¬ (("POST" : String) ≠ "POST"))]
  rw [if_neg hk]
  cases fr with
  | success r =>
    dsimp only
    split
    · exact upstreamErrorResult_trace _ _
    · exact relayResult_trace _ _ _
  | abortError => rfl
  | otherError msg => rfl

/-- Helper: on every path the response headers are either exactly the CORS
table or the CORS table followed by the streaming headers. -/
theorem handler_headers_cases (env : Env) (fr : FetchResult) (req : Request) :
    (handler env fr req).resp.headers = corsHeaders ∨
      (handler env fr req).resp.headers = corsHeaders ++ streamingHeaders := by
  unfold handler upstreamErrorResult relayResult
  repeat' split
  all_goals first
    | exact Or.inl rfl
    | exact Or.inr rfl

/-- Helper: on a POST with a usable credential the handler reduces to the
fetch-outcome case split. -/
theorem handler_post_eq (fr : FetchResult) (hs : List (String × String))
    (body : Json) (k : String) (hk : k ≠ "") :
    handler { nvidiaApiKey := some k } fr { method := "POST", headers := hs, body := body } =
      match fr with
      | .success r =>
        if r.ok = false then upstreamErrorResult r (outboundTrace k body)
        else relayResult r body (outboundTrace k body)
      | .abortError =>
        { resp := { status := 504, headers := corsHeaders, body := .json timeoutErrorBody },
          trace := outboundTrace k body }
      | .otherError msg =>
        { resp := { status := 500, headers := corsHeaders,
                    body := .json (internalErrorBody msg) },
          trace := outboundTrace k body } := by
  unfold handler
  dsimp only
  rw [if_neg (by decide : ¬ (("POST" : String) = "OPTIONS"))]
  rw [if_neg (by decide : ¬ (("POST" : String) ≠ "POST"))]
  rw [if_neg hk]

/-- Claim C7: every OPTIONS request receives HTTP 204 with an empty body
and the documented CORS headers, regardless of headers and body content,
for every environment and fetch outcome. -/
theorem options_preflight_204 (env : Env) (fr : FetchResult)
    (hs : List (String × String)) (body : Json) :
    handler env fr { method := "OPTIONS", headers := hs, body := body } =
      { resp := { status := 204, headers := corsHeaders, body := .empty }, trace := [] } := by
  rfl

/-- Claim C7 witness at a concrete request. -/
theorem options_preflight_204_witness :
    handler { nvidiaApiKey := none } .abortError
        { method := "OPTIONS", headers := [("content-type", "application/json")],
          body := .obj [("stream", .bool true)] } =
      { resp := { status := 204, headers := corsHeaders, body := .empty }, trace := [] } :=
  options_preflight_204 { nvidiaApiKey := none } .abortError
    [("content-type", "application/json")] (.obj [("stream", .bool true)])

/-- Claim C2: when NVIDIA_API_KEY is absent from the environment (unset,
or set to the empty string, which is falsy in JavaScript), every POST
request gets status 500 with the configuration_error body and the handler
makes no outbound call: the side-effect trace is empty. -/
theorem missing_key_config_error_no_fetch (fr : FetchResult)
    (hs : List (String × String)) (body : Json) :
    handler { nvidiaApiKey := none } fr { method := "POST", headers := hs, body := body } =
      { resp := { status := 500, headers := corsHeaders, body := .json configErrorBody },
        trace := [] } ∧
    handler { nvidiaApiKey := some "" } fr { method := "POST", headers := hs, body := body } =
      { resp := { status := 500, headers := corsHeaders, body := .json configErrorBody },
        trace := [] } :=
  ⟨rfl, rfl⟩

/-- Claim C2 witness at a concrete request with an unset key. -/
theorem missing_key_config_error_no_fetch_witness :
    handler { nvidiaApiKey := none }
        (.success { status := 200, jsonBody := .ok .null, chunks := [], readFails := false })
        { method := "POST", headers := [], body := .obj [("model", .str "deepseek-r1")] } =
      { resp := { status := 500, headers := corsHeaders, body := .json configErrorBody },
        trace := [] } :=
  (missing_key_config_error_no_fetch
    (.success { status := 200, jsonBody := .ok .null, chunks := [], readFails := false })
    [] (.obj [("model", .str "deepseek-r1")])).1

/-- Claim C4: every response, on every code path, carries all four CORS
headers (wildcard origin, methods GET, POST, OPTIONS, the allowed-header
list, and the 86400-second preflight cache lifetime). -/
theorem cors_headers_on_every_response (env : Env) (fr : FetchResult) (req : Request) :
    corsHeaders ⊆ (handler env fr req).resp.headers := by
  rcases handler_headers_cases env fr req with h | h
  · rw [h]
    exact List.Subset.refl _
  · rw [h]
    exact List.subset_append_left _ _

/-- Claim C4 witness on a concrete internal-error path. -/
theorem cors_headers_on_every_response_witness :
    corsHeaders ⊆ (handler { nvidiaApiKey := some "server-key" } (.otherError "boom")
      { method := "POST", headers := [], body := .obj [] }).resp.headers :=
  cors_headers_on_every_response _ _ _

/-- Claim C1: routing is a function of the requested model name in which
the static alias table has no specifically-mapped entries, so every alias
takes the unknown-alias fallback: the outbound call goes to the default
(NVIDIA) provider chat-completions URL with the server credential, and the
passthrough payload is the client body itself, so the model identifier in
the outgoing payload is the routing-derived one, namely the requested
alias unchanged. -/
theorem routing_passthrough_default_provider (fr : FetchResult)
    (hs : List (String × String)) (body : Json) (k : String) (hk : k ≠ "") :
    (handler { nvidiaApiKey := some k } fr
        { method := "POST", headers := hs, body := body }).trace =
      [Event.armTimer 120000,
       Event.fetchCall ("https://integrate.api.nvidia.com/v1" ++ "/chat/completions")
         "application/json" ("Bearer " ++ k) body,
       Event.clearTimer] :=
  handler_post_trace fr hs body k hk

/-- Claim C1 witness: an unrecognized alias is forwarded unchanged to the
default provider. -/
theorem routing_passthrough_default_provider_witness :
    ("nvapi-secret" : String) ≠ "" ∧
    (handler { nvidiaApiKey := some "nvapi-secret" }
        (.success { status := 200, jsonBody := .ok .null, chunks := [], readFails := false })
        { method := "POST", headers := [],
          body := .obj [("model", .str "totally-unknown-alias"), ("stream", .bool true)] }).trace =
      [Event.armTimer 120000,
       Event.fetchCall ("https://integrate.api.nvidia.com/v1" ++ "/chat/completions")
         "application/json" ("Bearer " ++ "nvapi-secret")
         (.obj [("model", .str "totally-unknown-alias"), ("stream", .bool true)]),
       Event.clearTimer] :=
  ⟨by decide,
   routing_passthrough_default_provider
     (.success { status := 200, jsonBody := .ok .null, chunks := [], readFails := false })
     [] (.obj [("model", .str "totally-unknown-alias"), ("stream", .bool true)])
     "nvapi-secret" (by decide)⟩

/-- Claim C6: with a usable credential, a fetch rejected with AbortError
(the only abort source in the code is the 120000 ms timer armed at line
211) yields HTTP 504 with the timeout_error body; and on a fetch that
returns response headers, the trace shows clearTimeout immediately after
the fetch settles and before any response processing: exactly armTimer,
fetchCall, clearTimer. -/
theorem timeout_504_and_timer_disarm (hs : List (String × String))
    (body : Json) (k : String) (r : UpstreamResponse) (hk : k ≠ "") :
    (handler { nvidiaApiKey := some k } .abortError
        { method := "POST", headers := hs, body := body }).resp =
      { status := 504, headers := corsHeaders, body := .json timeoutErrorBody } ∧
    (handler { nvidiaApiKey := some k } (.success r)
        { method := "POST", headers := hs, body := body }).trace =
      outboundTrace k body := by
  constructor
  · rw [handler_post_eq .abortError hs body k hk]
  · exact handler_post_trace (.success r) hs body k hk

/-- Claim C6 witness at a concrete aborted request. -/
theorem timeout_504_and_timer_disarm_witness :
    ("nv-key" : String) ≠ "" ∧
    (handler { nvidiaApiKey := some "nv-key" } .abortError
        { method := "POST", headers := [], body := .obj [("stream", .bool true)] }).resp =
      { status := 504, headers := corsHeaders, body := .json timeoutErrorBody } ∧
    (handler { nvidiaApiKey := some "nv-key" }
        (.success { status := 200, jsonBody := .ok .null, chunks := ["x"], readFails := false })
        { method := "POST", headers := [], body := .obj [("stream", .bool true)] }).trace =
      outboundTrace "nv-key" (.obj [("stream", .bool true)]) :=
  ⟨by decide,
   (timeout_504_and_timer_disarm [] (.obj [("stream", .bool true)]) "nv-key"
     { status := 200, jsonBody := .ok .null, chunks := ["x"], readFails := false }
     (by decide)).1,
   (timeout_504_and_timer_disarm [] (.obj [("stream", .bool true)]) "nv-key"
     { status := 200, jsonBody := .ok .null, chunks := ["x"], readFails := false }
     (by decide)).2⟩

/-- Claim C10: the handler result does not depend on the request headers
at all, in particular not on the User-Agent and X-Janitor-Client values
that feed the mobile-client detection (def isMobile, computed at line 186
and only logged): two POST requests differing only in headers produce
identical responses and identical side-effect traces; and the outbound
trace shows the Authorization header sent upstream is always Bearer
followed by the server credential, with Content-Type the only other
outbound header, so caller Authorization and X-API-Key headers are never
forwarded. -/
theorem header_noninterference_and_server_credential (env : Env) (fr : FetchResult)
    (h1 h2 : List (String × String)) (body : Json) (k : String) (hk : k ≠ "") :
    handler env fr { method := "POST", headers := h1, body := body } =
      handler env fr { method := "POST", headers := h2, body := body } ∧
    (handler { nvidiaApiKey := some k } fr
        { method := "POST", headers := h1, body := body }).trace =
      outboundTrace k body :=
  ⟨rfl, handler_post_trace fr h1 body k hk⟩

/-- Claim C10 witness: a mobile and a non-mobile request (the detection
differs) get identical results, with the server credential upstream. -/
theorem header_noninterference_and_server_credential_witness :
    isMobile { method := "POST",
               headers := [("user-agent", "JanitorAI Mobile App"), ("authorization", "Bearer caller-token")],
               body := .obj [("stream", .bool true)] } = true ∧
    isMobile { method := "POST", headers := [], body := .obj [("stream", .bool true)] } = false ∧
    ("nv-key" : String) ≠ "" ∧
    (handler { nvidiaApiKey := some "nv-key" } .abortError
        { method := "POST",
          headers := [("user-agent", "JanitorAI Mobile App"), ("authorization", "Bearer caller-token")],
          body := .obj [("stream", .bool true)] } =
      handler { nvidiaApiKey := some "nv-key" } .abortError
        { method := "POST", headers := [], body := .obj [("stream", .bool true)] }) ∧
    (handler { nvidiaApiKey := some "nv-key" } .abortError
        { method := "POST",
          headers := [("user-agent", "JanitorAI Mobile App"), ("authorization", "Bearer caller-token")],
          body := .obj [("stream", .bool true)] }).trace =
      outboundTrace "nv-key" (.obj [("stream", .bool true)]) :=
  ⟨rfl, rfl, by decide,
   (header_noninterference_and_server_credential { nvidiaApiKey := some "nv-key" } .abortError
     [("user-agent", "JanitorAI Mobile App"), ("authorization", "Bearer caller-token")] []
     (.obj [("stream", .bool true)]) "nv-key" (by decide)).1,
   (header_noninterference_and_server_credential { nvidiaApiKey := some "nv-key" } .abortError
     [("user-agent", "JanitorAI Mobile App"), ("authorization", "Bearer caller-token")] []
     (.obj [("stream", .bool true)]) "nv-key" (by decide)).2⟩

/-- Claim C9: with a usable credential and a successful (2xx) upstream
response, the handler treats the request as streaming, setting the
event-stream content type, exactly when the body object has no stream
field equal to the strict boolean false: absent, true, the string false,
null, 0 or any other value all stream; only the boolean false takes the
non-streaming path, whose responses carry only the CORS headers. -/
theorem stream_flag_strict_false (hs : List (String × String))
    (fields : List (String × Json)) (k : String) (r : UpstreamResponse)
    (hk : k ≠ "") (hok : r.ok = true) :
    (("Content-Type", "text/event-stream") ∈
        (handler { nvidiaApiKey := some k } (.success r)
          { method := "POST", headers := hs, body := .obj fields }).resp.headers)
      ↔ fields.lookup "stream" ≠ some (Json.bool false) := by
  rw [handler_post_eq (.success r) hs (.obj fields) k hk]
  dsimp only
  rw [hok, if_neg (by decide : ¬ (true = false))]
  unfold relayResult
  dsimp only [Json.member]
  cases hl : fields.lookup "stream" with
  | none =>
    dsimp only
    exact ⟨fun _ h => Option.noConfusion h, fun _ => by decide⟩
  | some v =>
    cases v with
    | null =>
      dsimp only
      exact ⟨fun _ h => Json.noConfusion (Option.some.inj h), fun _ => by decide⟩
    | bool b =>
      cases b with
      | false =>
        cases hj : r.jsonBody with
        | ok data =>
          dsimp only
          exact ⟨fun hmem => absurd hmem (by decide), fun hne => absurd rfl hne⟩
        | error m =>
          dsimp only
          exact ⟨fun hmem => absurd hmem (by decide), fun hne => absurd rfl hne⟩
      | true =>
        dsimp only
        refine ⟨fun _ h => ?_, fun _ => by decide⟩
        exact Json.noConfusion (Option.some.inj h) (fun hb => Bool.noConfusion hb)
    | num n =>
      dsimp only
      exact ⟨fun _ h => Json.noConfusion (Option.some.inj h), fun _ => by decide⟩
    | str s =>
      dsimp only
      exact ⟨fun _ h => Json.noConfusion (Option.some.inj h), fun _ => by decide⟩
    | arr elems =>
      dsimp only
      exact ⟨fun _ h => Json.noConfusion (Option.some.inj h), fun _ => by decide⟩
    | obj f2 =>
      dsimp only
      exact ⟨fun _ h => Json.noConfusion (Option.some.inj h), fun _ => by decide⟩

/-- Claim C9 witness: a string-valued stream field still streams. -/
theorem stream_flag_strict_false_witness :
    ("nv-key" : String) ≠ "" ∧
    (UpstreamResponse.ok { status := 200, jsonBody := .ok .null, chunks := ["c1"], readFails := false }) = true ∧
    ((("Content-Type", "text/event-stream") ∈
        (handler { nvidiaApiKey := some "nv-key" }
          (.success { status := 200, jsonBody := .ok .null, chunks := ["c1"], readFails := false })
          { method := "POST", headers := [],
            body := .obj [("stream", .str "false")] }).resp.headers)
      ↔ [("stream", Json.str "false")].lookup "stream" ≠ some (Json.bool false)) :=
  ⟨by decide, rfl,
   stream_flag_strict_false [] [("stream", .str "false")] "nv-key"
     { status := 200, jsonBody := .ok .null, chunks := ["c1"], readFails := false }
     (by decide) rfl⟩

/-- Claim C3: on the streaming path with no read failure, the writes to
the caller are exactly the upstream chunks, in order, with nothing added,
dropped or transformed, and the chunks are never inspected: the result
holds for arbitrary chunk contents, so no event-stream framing is parsed. -/
theorem streaming_relays_chunks_verbatim (hs : List (String × String))
    (body : Json) (k : String) (r : UpstreamResponse) (mv : Option Json)
    (hk : k ≠ "") (hok : r.ok = true) (hrf : r.readFails = false)
    (hmem : body.member "stream" = some mv) (hmv : mv ≠ some (Json.bool false)) :
    (handler { nvidiaApiKey := some k } (.success r)
        { method := "POST", headers := hs, body := body }).resp =
      { status := 200, headers := corsHeaders ++ streamingHeaders,
        body := .stream r.chunks } := by
  rw [handler_post_eq (.success r) hs body k hk]
  dsimp only
  rw [hok, if_neg (by decide : ¬ (true = false))]
  unfold relayResult
  rw [hmem]
  cases mv with
  | none =>
    dsimp only
    rw [if_neg (by rw [hrf]; decide)]
  | some v =>
    cases v with
    | null => dsimp only; rw [if_neg (by rw [hrf]; decide)]
    | bool b =>
      cases b with
      | false => exact absurd rfl hmv
      | true => dsimp only; rw [if_neg (by rw [hrf]; decide)]
    | num n => dsimp only; rw [if_neg (by rw [hrf]; decide)]
    | str s => dsimp only; rw [if_neg (by rw [hrf]; decide)]
    | arr elems => dsimp only; rw [if_neg (by rw [hrf]; decide)]
    | obj f2 => dsimp only; rw [if_neg (by rw [hrf]; decide)]

/-- Claim C3 witness: two arbitrary chunks relayed in order. -/
theorem streaming_relays_chunks_verbatim_witness :
    ("nv-key" : String) ≠ "" ∧
    (UpstreamResponse.ok { status := 200, jsonBody := .ok .null, chunks := ["data: a\n\n", "data: [DONE]\n\n"], readFails := false }) = true ∧
    ({ status := 200, jsonBody := .ok (.null), chunks := ["data: a\n\n", "data: [DONE]\n\n"], readFails := false } : UpstreamResponse).readFails = false ∧
    Json.member (.obj [("stream", .bool true)]) "stream" = some (some (.bool true)) ∧
    (handler { nvidiaApiKey := some "nv-key" }
        (.success { status := 200, jsonBody := .ok .null, chunks := ["data: a\n\n", "data: [DONE]\n\n"], readFails := false })
        { method := "POST", headers := [], body := .obj [("stream", .bool true)] }).resp =
      { status := 200, headers := corsHeaders ++ streamingHeaders,
        body := .stream ["data: a\n\n", "data: [DONE]\n\n"] } :=
  ⟨by decide, rfl, rfl, rfl,
   streaming_relays_chunks_verbatim [] (.obj [("stream", .bool true)]) "nv-key"
     { status := 200, jsonBody := .ok .null, chunks := ["data: a\n\n", "data: [DONE]\n\n"], readFails := false }
     (some (.bool true)) (by decide) rfl rfl rfl
     (fun h => Json.noConfusion (Option.some.inj h) (fun hb => Bool.noConfusion hb))⟩

/-- Claim C8: when the upstream body read fails after streaming began, the
caller sees the upstream chunks already delivered followed by exactly one
final synthetic stream_error event, the connection is then ended, and the
committed status is still the 200 of the streaming path. -/
theorem stream_failure_synthetic_event (hs : List (String × String))
    (body : Json) (k : String) (r : UpstreamResponse) (mv : Option Json)
    (hk : k ≠ "") (hok : r.ok = true) (hrf : r.readFails = true)
    (hmem : body.member "stream" = some mv) (hmv : mv ≠ some (Json.bool false)) :
    (handler { nvidiaApiKey := some k } (.success r)
        { method := "POST", headers := hs, body := body }).resp =
      { status := 200, headers := corsHeaders ++ streamingHeaders,
        body := .stream (r.chunks ++ [streamErrorEventText]) } := by
  rw [handler_post_eq (.success r) hs body k hk]
  dsimp only
  rw [hok, if_neg (by decide : ¬ (true = false))]
  unfold relayResult
  rw [hmem]
  cases mv with
  | none =>
    dsimp only
    rw [if_pos (by rw [hrf])]
  | some v =>
    cases v with
    | null => dsimp only; rw [if_pos (by rw [hrf])]
    | bool b =>
      cases b with
      | false => exact absurd rfl hmv
      | true => dsimp only; rw [if_pos (by rw [hrf])]
    | num n => dsimp only; rw [if_pos (by rw [hrf])]
    | str s => dsimp only; rw [if_pos (by rw [hrf])]
    | arr elems => dsimp only; rw [if_pos (by rw [hrf])]
    | obj f2 => dsimp only; rw [if_pos (by rw [hrf])]

/-- Claim C8 witness: one chunk, then the synthetic error event. -/
theorem stream_failure_synthetic_event_witness :
    ("nv-key" : String) ≠ "" ∧
    (UpstreamResponse.ok { status := 200, jsonBody := .ok .null, chunks := ["data: a\n\n"], readFails := true }) = true ∧
    ({ status := 200, jsonBody := .ok (.null), chunks := ["data: a\n\n"], readFails := true } : UpstreamResponse).readFails = true ∧
    Json.member (.obj []) "stream" = some none ∧
    (handler { nvidiaApiKey := some "nv-key" }
        (.success { status := 200, jsonBody := .ok .null, chunks := ["data: a\n\n"], readFails := true })
        { method := "POST", headers := [], body := .obj [] }).resp =
      { status := 200, headers := corsHeaders ++ streamingHeaders,
        body := .stream (["data: a\n\n"] ++ [streamErrorEventText]) } :=
  ⟨by decide, rfl, rfl, rfl,
   stream_failure_synthetic_event [] (.obj []) "nv-key"
     { status := 200, jsonBody := .ok .null, chunks := ["data: a\n\n"], readFails := true }
     none (by decide) rfl rfl rfl (fun h => Option.noConfusion h)⟩

/-- Helper: the optional chain errorData.error?.message only throws when
errorData itself is JSON null. -/
theorem optChainMessage_isSome (j : Json) (h : j ≠ Json.null) :
    ∃ mv, optChainMessage j = some mv := by
  cases j with
  | null => exact absurd rfl h
  | bool b => exact ⟨none, rfl⟩
  | num n => exact ⟨none, rfl⟩
  | str s => exact ⟨none, rfl⟩
  | arr elems => exact ⟨none, rfl⟩
  | obj fields =>
    unfold optChainMessage
    dsimp only [Json.member]
    cases hl : fields.lookup "error" with
    | none => exact ⟨none, rfl⟩
    | some e =>
      cases e with
      | null => exact ⟨none, rfl⟩
      | bool b => exact ⟨none, rfl⟩
      | num n => exact ⟨none, rfl⟩
      | str s => exact ⟨none, rfl⟩
      | arr elems => exact ⟨none, rfl⟩
      | obj f2 => exact ⟨f2.lookup "message", rfl⟩

/-- Claim C5 counterexample: the upstream replies 404 (non-success) with a
body that parses to the JSON literal null. The claim requires the caller
to receive status 404 with an api_error envelope; the handler instead
responds 500 with an internal_error body, because errorData.error throws
a TypeError on the null errorData before the optional chain can guard. -/
theorem upstream_error_null_body_counterexample :
    (UpstreamResponse.ok { status := 404, jsonBody := .ok .null, chunks := [], readFails := false }) = false ∧
    (handler { nvidiaApiKey := some "server-key" }
        (.success { status := 404, jsonBody := .ok .null, chunks := [], readFails := false })
        { method := "POST", headers := [],
          body := .obj [("model", .str "m"), ("stream", .bool false)] }).resp.status = 500 ∧
    (handler { nvidiaApiKey := some "server-key" }
        (.success { status := 404, jsonBody := .ok .null, chunks := [], readFails := false })
        { method := "POST", headers := [],
          body := .obj [("model", .str "m"), ("stream", .bool false)] }).resp.body =
      .json (internalErrorBody nullErrorAccessMsg) ∧
    (500 : Nat) ≠ 404 :=
  ⟨rfl, rfl, rfl, by decide⟩

/-- Claim C5 (amended): for every POST request whose upstream call returns
a non-success status and whose (tolerantly) parsed error body is not the
JSON literal null, the handler responds with exactly the upstream status
and the normalized envelope error/message/type api_error/code upstream
status; an unparseable body is replaced by an empty object, whose chain
value is undefined (mv = none), yielding the fallback message. When the
body parses to JSON null the handler instead responds 500 internal_error
(see the counterexample). -/
theorem upstream_error_normalized_envelope (hs : List (String × String))
    (body : Json) (k : String) (r : UpstreamResponse)
    (hk : k ≠ "") (hok : r.ok = false)
    (hnn : parsedOrEmpty r.jsonBody ≠ Json.null) :
    ∃ mv, optChainMessage (parsedOrEmpty r.jsonBody) = some mv ∧
      (handler { nvidiaApiKey := some k } (.success r)
          { method := "POST", headers := hs, body := body }).resp =
        { status := r.status, headers := corsHeaders,
          body := .json (apiErrorBody (jsOr mv (.str "API request failed")) r.status) } ∧
      (∀ m, r.jsonBody = Except.error m → mv = none) := by
  obtain ⟨mv, hmv⟩ := optChainMessage_isSome (parsedOrEmpty r.jsonBody) hnn
  refine ⟨mv, hmv, ?_, ?_⟩
  · rw [handler_post_eq (.success r) hs body k hk]
    dsimp only
    rw [hok, if_pos rfl]
    unfold upstreamErrorResult
    rw [hmv]
  · intro m hm
    rw [hm] at hmv
    have h0 : optChainMessage (parsedOrEmpty (Except.error m)) = some none := rfl
    exact (Option.some.inj (h0.symm.trans hmv)).symm

/-- Claim C5 (amended) witness: a 503 with an unparseable body yields the
fallback api_error envelope with the upstream status. -/
theorem upstream_error_normalized_envelope_witness :
    ("nv-key" : String) ≠ "" ∧
    (UpstreamResponse.ok { status := 503, jsonBody := .error "parse failed", chunks := [], readFails := false }) = false ∧
    parsedOrEmpty (({ status := 503, jsonBody := .error "parse failed", chunks := [], readFails := false } : UpstreamResponse).jsonBody) ≠ Json.null ∧
    (∃ mv, optChainMessage (parsedOrEmpty (Except.error "parse failed")) = some mv ∧
      (handler { nvidiaApiKey := some "nv-key" }
          (.success { status := 503, jsonBody := .error "parse failed", chunks := [], readFails := false })
          { method := "POST", headers := [], body := .obj [] }).resp =
        { status := 503, headers := corsHeaders,
          body := .json (apiErrorBody (jsOr mv (.str "API request failed")) 503) } ∧
      (∀ m, (Except.error "parse failed" : Except String Json) = Except.error m → mv = none)) :=
  ⟨by decide, rfl, fun h => Json.noConfusion h,
   upstream_error_normalized_envelope [] (.obj []) "nv-key"
     { status := 503, jsonBody := .error "parse failed", chunks := [], readFails := false }
     (by decide) rfl (fun h => Json.noConfusion h)⟩

end MilkyProxy
